import Mathlib

/-!
Shallow embedding of the analytic core of the KONE Maintenance Portal
(Streamlit pages `1_Trend_Analyzer.py`, `6_Equipment_Health_Score.py`,
`7_Prediction_Module.py`).  Null float values (NaN / None) are modelled as
`Option ℚ` entries; float arithmetic is modelled exactly over ℚ, and the
square root appearing in standard deviations is handled by comparing
squares (with bridging lemmas to `Real.sqrt` where a statement needs the
literal `μ + k·σ` form).
-/

namespace KonePortal

/-! ## Trend Analyzer (`src/pages/1_Trend_Analyzer.py`) -/

/-- Non-null entries of a value sequence (`arr` without its NaNs). -/
def nonNull (vs : List (Option ℚ)) : List ℚ := vs.filterMap id

/-- Embedding of `np.nanmean(arr)`: mean of the non-null values. -/
def nanmean (vs : List (Option ℚ)) : ℚ :=
  (nonNull vs).sum / (nonNull vs).length

/-- Embedding of `np.nanstd(arr) ** 2`: the population variance of the
non-null values (`np.nanstd` is the square root of this quantity). -/
def nanvar (vs : List (Option ℚ)) : ℚ :=
  ((nonNull vs).map (fun x => (x - nanmean vs) ^ 2)).sum / (nonNull vs).length

/-- The source comparison `b > upper_stat` where
`upper_stat = mean + std_factor * std` and `std = sqrt var`: for
`k ≥ 0` this holds iff `mean < b` and `k² · var < (b - mean)²`
(see `statHigh_iff_real`). -/
def statHigh (b mean var k : ℚ) : Bool :=
  decide (mean < b) && decide (k ^ 2 * var < (b - mean) ^ 2)

/-- The source comparison `b < lower_stat` where
`lower_stat = mean - std_factor * std`, by comparing squares. -/
def statLow (b mean var k : ℚ) : Bool :=
  decide (b < mean) && decide (k ^ 2 * var < (mean - b) ^ 2)

/-- The source test `high_thresh is not None and b > high_thresh`. -/
def highBreach (high : Option ℚ) (b : ℚ) : Bool :=
  match high with
  | some h => decide (h < b)
  | none => false

/-- The source test `low_thresh is not None and b < low_thresh`. -/
def lowBreach (low : Option ℚ) (b : ℚ) : Bool :=
  match low with
  | some l => decide (b < l)
  | none => false

/-- Body of the peak test at index `i`: `a, b, c = arr[i-1], arr[i], arr[i+1]`,
all three non-NaN, `b > a and b > c and ((high is not None and b > high) or
b > upper_stat)`. -/
def peakAt (vs : List (Option ℚ)) (high : Option ℚ) (mean var k : ℚ)
    (i : ℕ) : Bool :=
  match vs.getD (i - 1) none, vs.getD i none, vs.getD (i + 1) none with
  | some a, some b, some c =>
      decide (a < b) && decide (c < b) && (highBreach high b || statHigh b mean var k)
  | _, _, _ => false

/-- Body of the low test at index `i`. -/
def lowAt (vs : List (Option ℚ)) (low : Option ℚ) (mean var k : ℚ)
    (i : ℕ) : Bool :=
  match vs.getD (i - 1) none, vs.getD i none, vs.getD (i + 1) none with
  | some a, some b, some c =>
      decide (b < a) && decide (b < c) && (lowBreach low b || statLow b mean var k)
  | _, _, _ => false

/-- Embedding of `detect_peaks_lows(values, low_thresh, high_thresh, std_factor)`
from `1_Trend_Analyzer.py`: returns the lists of flagged peak and low indices.
The guard mirrors `if n < 3 or np.isnan(arr).all(): return [], []`, and the
loop `for i in range(1, n-1)` is `List.range' 1 (n - 2)`. -/
def detect_peaks_lows (values : List (Option ℚ)) (low high : Option ℚ)
    (std_factor : ℚ) : List ℕ × List ℕ :=
  let n := values.length
  if n < 3 ∨ nonNull values = [] then ([], [])
  else
    let mean := nanmean values
    let var := nanvar values
    ((List.range' 1 (n - 2)).filter (fun i => peakAt values high mean var std_factor i),
     (List.range' 1 (n - 2)).filter (fun i => lowAt values low mean var std_factor i))

/-- Point status labels returned by `point_status`. -/
inductive PointStatus where
  | ok
  | corrective
  | nodata
  deriving DecidableEq, Repr

/-- Embedding of `point_status(value, thresh)` from `1_Trend_Analyzer.py`. -/
def point_status (value : Option ℚ) (thresh : Option ℚ × Option ℚ) :
    PointStatus :=
  match value with
  | none => .nodata
  | some v =>
    match thresh with
    | (some low, some high) => if low ≤ v ∧ v ≤ high then .ok else .corrective
    | (none, some high) => if v ≤ high then .ok else .corrective
    | (some low, none) => if low ≤ v then .ok else .corrective
    | (none, none) => .corrective

/-! ## Equipment Health Score (`src/pages/6_Equipment_Health_Score.py`) -/

/-- Embedding of the weight re-normalization
`total_w = sum(weights.values()) if sum(weights.values())>0 else 1.0;
weights[k] = weights[k] / total_w`. -/
def normalize_weights (ws : List ℚ) : List ℚ :=
  let total := if 0 < ws.sum then ws.sum else 1
  ws.map (fun w => w / total)

/-- Embedding of the per-equipment aggregation
`np.average(g["HealthScoreKPI"], weights=g["Weight"]) if g["Weight"].sum()>0
else g["HealthScoreKPI"].mean()`.  A group is a list of
(weight, sub-score) pairs for one equipment. -/
def eq_health (g : List (ℚ × ℚ)) : ℚ :=
  if 0 < (g.map Prod.fst).sum then
    (g.map (fun p => p.1 * p.2)).sum / (g.map Prod.fst).sum
  else
    (g.map Prod.snd).sum / (g.map Prod.snd).length

/-- Health status labels produced by `np.select(conds, choices, default)`. -/
inductive HealthStatus where
  | excellent
  | needsMonitoring
  | critical
  | unknown
  deriving DecidableEq, Repr

/-- Embedding of the `np.select` classification: conditions
`[s >= 85, (s >= 70) & (s < 85), s < 70]` tried in order, default Unknown. -/
def healthStatus (s : ℚ) : HealthStatus :=
  if 85 ≤ s then .excellent
  else if 70 ≤ s ∧ s < 85 then .needsMonitoring
  else if s < 70 then .critical
  else .unknown

/-- Embedding of `np.mean` over a group of values (ℝ, since the
variability scorer below needs a real square root). -/
noncomputable def meanR (xs : List ℝ) : ℝ := xs.sum / xs.length

/-- Sample variance with ddof = 1, the quantity whose square root pandas
`agg(std_ave=("ave","std"))` computes. -/
noncomputable def sampleVar (xs : List ℝ) : ℝ :=
  (xs.map (fun x => (x - meanR xs) ^ 2)).sum / ((xs.length : ℝ) - 1)

/-- Embedding of the per-group `std_ave` column: pandas sample standard
deviation, which is NaN (modelled as `none`) for groups with fewer than
two points. -/
noncomputable def std_ave (xs : List ℝ) : Option ℝ :=
  if xs.length < 2 then none else some (Real.sqrt (sampleVar xs))

/-- Embedding of
`max_std = stats["std_ave"].max() if not np.isnan(...) else 0.0`:
pandas `max` skips NaN entries and yields NaN only when all are NaN. -/
noncomputable def max_std (stds : List (Option ℝ)) : ℝ :=
  match (stds.filterMap id).max? with
  | some m => m
  | none => 0

/-- Embedding of
`norm_std = std_ave / (max_std + 1e-9)` and
`HealthScoreKPI = (100 - norm_std * 100).clip(0, 100)`; a NaN `std_ave`
propagates to a NaN sub-score.  (The source additionally rounds the
sub-score to two decimals, which is the identity on the values the
claims are about.) -/
noncomputable def health_sub_score (stdv : Option ℝ) (maxStd : ℝ) : Option ℝ :=
  stdv.map (fun s => min 100 (max 0 (100 - s / (maxStd + 1 / 1000000000) * 100)))

/-- The variability scorer over all (equipment, kpi) groups of the current
filtered set: per-group `std_ave`, shared `max_std`, per-group sub-score. -/
noncomputable def variabilityScores (groups : List (List ℝ)) : List (Option ℝ) :=
  let stds := groups.map std_ave
  let m := max_std stds
  stds.map (fun s => health_sub_score s m)

/-! ## Prediction Module (`src/pages/7_Prediction_Module.py`) -/

/-- Embedding of the `KPI_THRESHOLDS` dict (identical in
`1_Trend_Analyzer.py` and `7_Prediction_Module.py`). -/
def KPI_THRESHOLDS : List (String × (Option ℚ × Option ℚ)) :=
  [("doorfriction", (some 30, some 50)),
   ("cumulativedoorspeederror", (some (5/100), some (8/100))),
   ("lockhookclosingtime", (some (2/10), some (6/10))),
   ("lockhooktime", (some (3/10), none)),
   ("maximumforceduringcompress", (some 5, some 28)),
   ("landingdoorlockrollerclearance", (none, some (29/1000)))]

/-- Embedding of Python `str.lower()` on ASCII strings: each character is
lower-cased individually (extensionally `String.toLower`, stated on the
character list so that it reduces in the kernel). -/
def str_lower (s : String) : String := ⟨s.data.map Char.toLower⟩

/-- Embedding of
`low_thresh, high_thresh = KPI_THRESHOLDS.get(selected_kpi.lower(), (None, None))`
— the key is lower-cased only, non-alphanumeric characters are kept. -/
def lookupThresholds (selected_kpi : String) : Option ℚ × Option ℚ :=
  (KPI_THRESHOLDS.lookup (str_lower selected_kpi)).getD (none, none)

/-- Embedding of the breach scan on the forecast frame (rows in frame
order, as `(ds, yhat)` pairs):
`if high_thresh is not None: exceed = forecast[forecast["yhat"] > high]`,
take `exceed.iloc[0]["ds"]` if non-empty;
`elif low_thresh is not None:` symmetrically; else stay `None`. -/
def predicted_failure_date (forecast : List (ℕ × ℚ))
    (low high : Option ℚ) : Option ℕ :=
  match high with
  | some h => ((forecast.filter (fun p => decide (h < p.2))).head?).map Prod.fst
  | none =>
    match low with
    | some l => ((forecast.filter (fun p => decide (p.2 < l))).head?).map Prod.fst
    | none => none

/-- Outcome of one per-series forecast attempt: the `len(df_kpi) < 10`
guard either signals insufficient data for that series or lets the
(external, Prophet-provided) fit run. -/
inductive ForecastOutcome (α : Type) where
  | insufficientData : ForecastOutcome α
  | forecast : α → ForecastOutcome α
  deriving DecidableEq, Repr

/-- Embedding of the per-series gate `if len(df_kpi) < 10: <signal>` in
`7_Prediction_Module.py` (and `if len(df_kpi_eq) < 10` in
`6_Equipment_Health_Score.py`); the Prophet fit itself is external and
passed as `fit`. -/
def forecastGate {α : Type} (fit : List (ℕ × ℚ) → α)
    (pts : List (ℕ × ℚ)) : ForecastOutcome α :=
  if pts.length < 10 then .insufficientData else .forecast (fit pts)

/-- Running the gate independently over a list of series. -/
def forecastAll {α : Type} (fit : List (ℕ × ℚ) → α)
    (seriesList : List (List (ℕ × ℚ))) : List (ForecastOutcome α) :=
  seriesList.map (forecastGate fit)

/-! ## Full pipeline (determinism claim) -/

/-- Input of one full analysis run: per-series values with their threshold
spec, the sensitivity factor, per-equipment (weight, sub-score) groups,
and per-series forecast rows with their threshold spec. -/
structure PipelineInput where
  series : List (List (Option ℚ) × (Option ℚ × Option ℚ))
  k : ℚ
  healthGroups : List (List (ℚ × ℚ))
  forecasts : List (List (ℕ × ℚ) × (Option ℚ × Option ℚ))
  deriving DecidableEq

/-- One full analysis run: per-series (peak count, low count), per-equipment
health score, per-series breach date — a pure function of its input. -/
def analysisPipeline (inp : PipelineInput) :
    List (ℕ × ℕ) × List ℚ × List (Option ℕ) :=
  (inp.series.map (fun t =>
      ((detect_peaks_lows t.1 t.2.1 t.2.2 inp.k).1.length,
       (detect_peaks_lows t.1 t.2.1 t.2.2 inp.k).2.length)),
   inp.healthGroups.map eq_health,
   inp.forecasts.map (fun t => predicted_failure_date t.1 t.2.1 t.2.2))

/-! ## Helper lemmas -/

/-- Dividing every entry of a list by `c` divides the sum by `c`. -/
lemma sum_map_div (l : List ℚ) (c : ℚ) :
    (l.map (fun w => w / c)).sum = l.sum / c := by
  induction l with
  | nil => simp
  | cons a t ih => simp [ih, add_div]

/-- `List.lookup` misses every key that is not in the association list. -/
lemma lookup_eq_none_of_not_mem {α β : Type} [BEq α] [LawfulBEq α]
    (l : List (α × β)) (a : α) (h : a ∉ l.map Prod.fst) :
    l.lookup a = none := by
  induction l with
  | nil => rfl
  | cons p t ih =>
    simp only [List.map_cons, List.mem_cons] at h
    push_neg at h
    have hne : (a == p.1) = false := by
      simp [h.1]
    simpa [List.lookup, hne] using ih h.2

/-- On a list sorted (non-strictly) by first component, the head of the
filtered list is exactly the minimal-timestamp element satisfying the
predicate. -/
lemma head_filter_eq_some_iff (P : ℕ × ℚ → Bool) (f : List (ℕ × ℚ))
    (hs : f.Pairwise (fun p q => p.1 ≤ q.1)) (d : ℕ) :
    ((f.filter P).head?).map Prod.fst = some d ↔
      (∃ y, (d, y) ∈ f ∧ P (d, y) = true) ∧
        ∀ q ∈ f, P q = true → d ≤ q.1 := by
  induction f with
  | nil => simp
  | cons a t ih =>
    rcases List.pairwise_cons.mp hs with ⟨ha, ht⟩
    by_cases hPa : P a = true
    · rw [List.filter_cons_of_pos hPa]
      constructor
      · intro h
        have had : a.1 = d := by simpa using h
        subst had
        refine ⟨⟨a.2, by simp, by simpa using hPa⟩, ?_⟩
        intro q hq hPq
        rcases List.mem_cons.mp hq with rfl | hq'
        · exact le_refl _
        · exact ha q hq'
      · rintro ⟨⟨y, hy, hPy⟩, hmin⟩
        have h1 : d ≤ a.1 := hmin a (by simp) hPa
        rcases List.mem_cons.mp hy with heq | hy'
        · have : a.1 = d := by rw [← heq]
          simpa using this
        · have h2 : a.1 ≤ d := by simpa using ha _ hy'
          simpa using le_antisymm h2 h1
    · rw [List.filter_cons_of_neg hPa]
      rw [ih ht]
      constructor
      · rintro ⟨⟨y, hy, hPy⟩, hmin⟩
        refine ⟨⟨y, List.mem_cons_of_mem a hy, hPy⟩, ?_⟩
        intro q hq hPq
        rcases List.mem_cons.mp hq with rfl | hq'
        · exact absurd hPq hPa
        · exact hmin q hq' hPq
      · rintro ⟨⟨y, hy, hPy⟩, hmin⟩
        rcases List.mem_cons.mp hy with heq | hy'
        · exact absurd (heq ▸ hPy) hPa
        · exact ⟨⟨y, hy', hPy⟩,
            fun q hq hPq => hmin q (List.mem_cons_of_mem a hq) hPq⟩

/-- The filtered head is `none` exactly when no element satisfies the
predicate. -/
lemma head_filter_eq_none_iff (P : ℕ × ℚ → Bool) (f : List (ℕ × ℚ)) :
    ((f.filter P).head?).map Prod.fst = none ↔ ∀ q ∈ f, ¬P q = true := by
  simp [List.filter_eq_nil_iff]

/-- The population variance of the non-null values is nonnegative. -/
lemma nanvar_nonneg (vs : List (Option ℚ)) : 0 ≤ nanvar vs := by
  unfold nanvar
  apply div_nonneg
  · apply List.sum_nonneg
    intro x hx
    obtain ⟨y, _, rfl⟩ := List.mem_map.mp hx
    positivity
  · positivity

/-- Faithfulness of the squared comparison: for a nonnegative sensitivity
factor, `statHigh` holds exactly when `b > mean + k·σ` with
`σ = sqrt var` over the reals. -/
lemma statHigh_iff_real (b m v k : ℚ) (hk : 0 ≤ k) (hv : 0 ≤ v) :
    statHigh b m v k = true ↔ (m : ℝ) + k * Real.sqrt v < b := by
  unfold statHigh
  rw [Bool.and_eq_true, decide_eq_true_iff, decide_eq_true_iff]
  have hs : (0 : ℝ) ≤ Real.sqrt v := Real.sqrt_nonneg _
  have hsq : Real.sqrt (v : ℝ) ^ 2 = (v : ℝ) := Real.sq_sqrt (by exact_mod_cast hv)
  have hk' : (0 : ℝ) ≤ (k : ℚ) := by exact_mod_cast hk
  have hks : (0 : ℝ) ≤ (k : ℝ) * Real.sqrt v := mul_nonneg hk' hs
  constructor
  · rintro ⟨h1, h2⟩
    have h1' : (m : ℝ) < b := by exact_mod_cast h1
    have h2' : (k : ℝ) ^ 2 * v < ((b : ℝ) - m) ^ 2 := by exact_mod_cast h2
    nlinarith [hsq, hks, h1', h2']
  · intro h
    have h1' : (m : ℝ) < b := lt_of_le_of_lt (le_add_of_nonneg_right hks) h
    have h2' : (k : ℝ) ^ 2 * v < ((b : ℝ) - m) ^ 2 := by nlinarith [hsq, hks]
    exact ⟨by exact_mod_cast h1', by exact_mod_cast h2'⟩

/-- Faithfulness of the squared comparison on the low side:
`statLow` holds exactly when `b < mean - k·σ` over the reals. -/
lemma statLow_iff_real (b m v k : ℚ) (hk : 0 ≤ k) (hv : 0 ≤ v) :
    statLow b m v k = true ↔ (b : ℝ) < (m : ℝ) - k * Real.sqrt v := by
  unfold statLow
  rw [Bool.and_eq_true, decide_eq_true_iff, decide_eq_true_iff]
  have hs : (0 : ℝ) ≤ Real.sqrt v := Real.sqrt_nonneg _
  have hsq : Real.sqrt (v : ℝ) ^ 2 = (v : ℝ) := Real.sq_sqrt (by exact_mod_cast hv)
  have hk' : (0 : ℝ) ≤ (k : ℚ) := by exact_mod_cast hk
  have hks : (0 : ℝ) ≤ (k : ℝ) * Real.sqrt v := mul_nonneg hk' hs
  constructor
  · rintro ⟨h1, h2⟩
    have h1' : (b : ℝ) < m := by exact_mod_cast h1
    have h2' : (k : ℝ) ^ 2 * v < ((m : ℝ) - b) ^ 2 := by exact_mod_cast h2
    nlinarith [hsq, hks, h1', h2']
  · intro h
    have h1' : (b : ℝ) < m := lt_of_lt_of_le h (by linarith)
    have h2' : (k : ℝ) ^ 2 * v < ((m : ℝ) - b) ^ 2 := by nlinarith [hsq, hks]
    exact ⟨by exact_mod_cast h1', by exact_mod_cast h2'⟩

/-- Reading a list of optional values with default `none` yields
`some b` exactly when the index is in bounds and holds `some b`. -/
lemma getD_none_eq_some_iff (vs : List (Option ℚ)) (i : ℕ) (b : ℚ) :
    vs.getD i none = some b ↔ vs.get? i = some (some b) := by
  rw [List.getD_eq_getD_get?]
  cases h : vs.get? i <;> simp

/-- The source test `high_thresh is not None and b > high_thresh`, as a
proposition. -/
lemma highBreach_iff (high : Option ℚ) (b : ℚ) :
    highBreach high b = true ↔ ∃ hb, high = some hb ∧ hb < b := by
  cases high <;> simp [highBreach]

/-- The source test `low_thresh is not None and b < low_thresh`, as a
proposition. -/
lemma lowBreach_iff (low : Option ℚ) (b : ℚ) :
    lowBreach low b = true ↔ ∃ lb, low = some lb ∧ b < lb := by
  cases low <;> simp [lowBreach]

/-- Characterization of the peak test body. -/
lemma peakAt_eq_true_iff (vs : List (Option ℚ)) (high : Option ℚ)
    (m v k : ℚ) (i : ℕ) :
    peakAt vs high m v k i = true ↔
      ∃ a b c, vs.get? (i - 1) = some (some a) ∧ vs.get? i = some (some b) ∧
        vs.get? (i + 1) = some (some c) ∧ a < b ∧ c < b ∧
        (highBreach high b = true ∨ statHigh b m v k = true) := by
  constructor
  · intro h
    rw [peakAt] at h
    split at h
    case _ a b c h1 h2 h3 =>
      rw [Bool.and_eq_true, Bool.and_eq_true, Bool.or_eq_true,
        decide_eq_true_iff, decide_eq_true_iff] at h
      exact ⟨a, b, c, (getD_none_eq_some_iff vs _ a).mp h1,
        (getD_none_eq_some_iff vs _ b).mp h2,
        (getD_none_eq_some_iff vs _ c).mp h3, h.1.1, h.1.2, h.2⟩
    case _ => simp at h
  · rintro ⟨a, b, c, h1, h2, h3, hab, hcb, hor⟩
    rw [peakAt, (getD_none_eq_some_iff vs _ a).mpr h1,
      (getD_none_eq_some_iff vs _ b).mpr h2,
      (getD_none_eq_some_iff vs _ c).mpr h3]
    simp only [Bool.and_eq_true, Bool.or_eq_true, decide_eq_true_iff]
    exact ⟨⟨hab, hcb⟩, hor⟩

/-- Characterization of the low test body. -/
lemma lowAt_eq_true_iff (vs : List (Option ℚ)) (low : Option ℚ)
    (m v k : ℚ) (i : ℕ) :
    lowAt vs low m v k i = true ↔
      ∃ a b c, vs.get? (i - 1) = some (some a) ∧ vs.get? i = some (some b) ∧
        vs.get? (i + 1) = some (some c) ∧ b < a ∧ b < c ∧
        (lowBreach low b = true ∨ statLow b m v k = true) := by
  constructor
  · intro h
    rw [lowAt] at h
    split at h
    case _ a b c h1 h2 h3 =>
      rw [Bool.and_eq_true, Bool.and_eq_true, Bool.or_eq_true,
        decide_eq_true_iff, decide_eq_true_iff] at h
      exact ⟨a, b, c, (getD_none_eq_some_iff vs _ a).mp h1,
        (getD_none_eq_some_iff vs _ b).mp h2,
        (getD_none_eq_some_iff vs _ c).mp h3, h.1.1, h.1.2, h.2⟩
    case _ => simp at h
  · rintro ⟨a, b, c, h1, h2, h3, hab, hcb, hor⟩
    rw [lowAt, (getD_none_eq_some_iff vs _ a).mpr h1,
      (getD_none_eq_some_iff vs _ b).mpr h2,
      (getD_none_eq_some_iff vs _ c).mpr h3]
    simp only [Bool.and_eq_true, Bool.or_eq_true, decide_eq_true_iff]
    exact ⟨⟨hab, hcb⟩, hor⟩

/-- Membership in a filtered interior-index range. -/
lemma mem_filter_range' (n : ℕ) (p : ℕ → Bool) (i : ℕ) (_hn : 3 ≤ n) :
    (i ∈ (List.range' 1 (n - 2)).filter p) ↔
      1 ≤ i ∧ i ≤ n - 2 ∧ p i = true := by
  rw [List.mem_filter, List.mem_range'_1]
  constructor
  · rintro ⟨⟨h1, h2⟩, hp⟩
    exact ⟨h1, by omega, hp⟩
  · rintro ⟨h1, h2, hp⟩
    exact ⟨⟨h1, by omega⟩, hp⟩

/-- An all-null sequence has no in-bounds non-null entry. -/
lemma get?_some_ne_nonNull_nil (vs : List (Option ℚ)) (i : ℕ) (b : ℚ)
    (h : vs.get? i = some (some b)) : nonNull vs ≠ [] := by
  apply List.ne_nil_of_mem (a := b)
  exact List.mem_filterMap.mpr ⟨some b, List.get?_mem h, rfl⟩

/-! ## Claim theorems -/

/-- C4: `point_status` returns `nodata` on a null value; with both bounds
it is `ok` iff `low ≤ value ≤ high`, with only a high bound `ok` iff
`value ≤ high`, with only a low bound `ok` iff `value ≥ low`, and with
neither bound it is always `corrective`; comparisons are non-strict, so a
value equal to a bound is `ok`. -/
theorem C4_point_status_spec (x l h : ℚ) (t : Option ℚ × Option ℚ) :
    point_status none t = PointStatus.nodata ∧
    (point_status (some x) (some l, some h) = PointStatus.ok ↔ l ≤ x ∧ x ≤ h) ∧
    (point_status (some x) (some l, some h) = PointStatus.corrective ↔ ¬(l ≤ x ∧ x ≤ h)) ∧
    (point_status (some x) (none, some h) = PointStatus.ok ↔ x ≤ h) ∧
    (point_status (some x) (none, some h) = PointStatus.corrective ↔ ¬x ≤ h) ∧
    (point_status (some x) (some l, none) = PointStatus.ok ↔ l ≤ x) ∧
    (point_status (some x) (some l, none) = PointStatus.corrective ↔ ¬l ≤ x) ∧
    point_status (some x) (none, none) = PointStatus.corrective ∧
    point_status (some h) (none, some h) = PointStatus.ok ∧
    point_status (some l) (some l, none) = PointStatus.ok := by
  refine ⟨rfl, ?_, ?_, ?_, ?_, ?_, ?_, rfl, ?_, ?_⟩ <;>
    simp only [point_status] <;> split_ifs <;> simp_all

/-- C6: the health status bands are `Excellent` iff `score ≥ 85`,
`NeedsMonitoring` iff `70 ≤ score < 85`, `Critical` iff `score < 70`;
the bands are closed on their lower edges and exhaust all scores. -/
theorem C6_health_status_bands (s : ℚ) :
    (healthStatus s = HealthStatus.excellent ↔ 85 ≤ s) ∧
    (healthStatus s = HealthStatus.needsMonitoring ↔ 70 ≤ s ∧ s < 85) ∧
    (healthStatus s = HealthStatus.critical ↔ s < 70) ∧
    healthStatus s ≠ HealthStatus.unknown ∧
    healthStatus 85 = HealthStatus.excellent ∧
    healthStatus 70 = HealthStatus.needsMonitoring := by
  refine ⟨?_, ?_, ?_, ?_, by norm_num [healthStatus], by norm_num [healthStatus]⟩ <;>
    · simp only [healthStatus]
      split_ifs <;> simp_all <;> linarith

/-- C8: when the selected weights have positive total, the re-normalized
weights (each divided by the total) sum to exactly 1. -/
theorem C8_normalize_weights_sum_one (ws : List ℚ)
    (_hne : ws ≠ []) (_hnn : ∀ w ∈ ws, 0 ≤ w) (hpos : 0 < ws.sum) :
    (normalize_weights ws).sum = 1 := by
  unfold normalize_weights
  simp only [if_pos hpos]
  rw [sum_map_div]
  exact div_self (ne_of_gt hpos)

/-- Witness for C8 at the concrete weight list `[2, 3]`. -/
theorem C8_witness :
    (([2, 3] : List ℚ) ≠ [] ∧ (∀ w ∈ ([2, 3] : List ℚ), 0 ≤ w) ∧
      (0 : ℚ) < ([2, 3] : List ℚ).sum) ∧
    (normalize_weights [2, 3]).sum = 1 := by
  have h1 : ([2, 3] : List ℚ) ≠ [] := by simp
  have h2 : ∀ w ∈ ([2, 3] : List ℚ), 0 ≤ w := by
    intro w hw; fin_cases hw <;> norm_num
  have h3 : (0 : ℚ) < ([2, 3] : List ℚ).sum := by norm_num
  exact ⟨⟨h1, h2, h3⟩, C8_normalize_weights_sum_one [2, 3] h1 h2 h3⟩

/-- C2: with nonnegative weights, the aggregated health score is the
weighted mean `Σ(weight·sub-score) / Σ weight` when some weight is
nonzero, and the unweighted mean of the sub-scores when every weight is
zero; weights `{A: 1/2, B: 1/2}` with sub-scores `{A: 90, B: 50}` give
exactly 70, classified `NeedsMonitoring`. -/
theorem C2_eq_health_weighted_mean (g : List (ℚ × ℚ))
    (hw : ∀ p ∈ g, 0 ≤ p.1) :
    ((∃ p ∈ g, p.1 ≠ 0) →
      eq_health g = (g.map (fun p => p.1 * p.2)).sum / (g.map Prod.fst).sum) ∧
    ((∀ p ∈ g, p.1 = 0) →
      eq_health g = (g.map Prod.snd).sum / (g.map Prod.snd).length) ∧
    eq_health [(1/2, 90), (1/2, 50)] = 70 ∧
    healthStatus 70 = HealthStatus.needsMonitoring := by
  refine ⟨?_, ?_, by norm_num [eq_health], by norm_num [healthStatus]⟩
  · rintro ⟨p, hp, hp0⟩
    have hmem : p.1 ∈ g.map Prod.fst := List.mem_map_of_mem Prod.fst hp
    have hnn : ∀ x ∈ g.map Prod.fst, 0 ≤ x := by
      intro x hx
      obtain ⟨q, hq, rfl⟩ := List.mem_map.mp hx
      exact hw q hq
    have hple : p.1 ≤ (g.map Prod.fst).sum := List.single_le_sum hnn _ hmem
    have hppos : 0 < p.1 := lt_of_le_of_ne (hw p hp) (Ne.symm hp0)
    have hpos : 0 < (g.map Prod.fst).sum := lt_of_lt_of_le hppos hple
    unfold eq_health
    simp [if_pos hpos]
  · intro hz
    have hzero : (g.map Prod.fst).sum = 0 := by
      apply List.sum_eq_zero
      intro x hx
      obtain ⟨q, hq, rfl⟩ := List.mem_map.mp hx
      exact hz q hq
    unfold eq_health
    simp [hzero]

/-- Witness for C2 at the concrete example group from the spec. -/
theorem C2_witness :
    (∀ p ∈ ([(1/2, 90), (1/2, 50)] : List (ℚ × ℚ)), 0 ≤ p.1) ∧
    (((∃ p ∈ ([(1/2, 90), (1/2, 50)] : List (ℚ × ℚ)), p.1 ≠ 0) →
      eq_health [(1/2, 90), (1/2, 50)] =
        (([(1/2, 90), (1/2, 50)] : List (ℚ × ℚ)).map (fun p => p.1 * p.2)).sum /
          (([(1/2, 90), (1/2, 50)] : List (ℚ × ℚ)).map Prod.fst).sum) ∧
    ((∀ p ∈ ([(1/2, 90), (1/2, 50)] : List (ℚ × ℚ)), p.1 = 0) →
      eq_health [(1/2, 90), (1/2, 50)] =
        (([(1/2, 90), (1/2, 50)] : List (ℚ × ℚ)).map Prod.snd).sum /
          (([(1/2, 90), (1/2, 50)] : List (ℚ × ℚ)).map Prod.snd).length) ∧
    eq_health [(1/2, 90), (1/2, 50)] = 70 ∧
    healthStatus 70 = HealthStatus.needsMonitoring) := by
  have hw : ∀ p ∈ ([(1/2, 90), (1/2, 50)] : List (ℚ × ℚ)), 0 ≤ p.1 := by
    intro p hp; fin_cases hp <;> norm_num
  exact ⟨hw, C2_eq_health_weighted_mean [(1/2, 90), (1/2, 50)] hw⟩

/-- C7: a series with fewer than 10 observed points yields the
`insufficient-data` signal and no model fit, a series with at least 10
points is forecast, and in a run over many series the signal is scoped to
the short series only — the outcomes of the other series are unchanged. -/
theorem C7_insufficient_data_gate {α : Type} (fit : List (ℕ × ℚ) → α)
    (pts1 pts2 : List (ℕ × ℚ)) (l1 l2 : List (List (ℕ × ℚ)))
    (h1 : pts1.length < 10) (h2 : 10 ≤ pts2.length) :
    forecastGate fit pts1 = ForecastOutcome.insufficientData ∧
    forecastGate fit pts2 = ForecastOutcome.forecast (fit pts2) ∧
    forecastAll fit (l1 ++ pts1 :: l2) =
      forecastAll fit l1 ++
        ForecastOutcome.insufficientData :: forecastAll fit l2 := by
  have hg1 : forecastGate fit pts1 = ForecastOutcome.insufficientData := by
    unfold forecastGate; simp [if_pos h1]
  have hg2 : forecastGate fit pts2 = ForecastOutcome.forecast (fit pts2) := by
    unfold forecastGate; simp [if_neg (not_lt.mpr h2)]
  refine ⟨hg1, hg2, ?_⟩
  unfold forecastAll
  simp [List.map_append, hg1]

/-- Witness for C7: an empty series signals, a 10-point series is fit. -/
theorem C7_witness :
    (([] : List (ℕ × ℚ)).length < 10 ∧
      10 ≤ (List.replicate 10 ((0 : ℕ), (0 : ℚ))).length) ∧
    (forecastGate List.length ([] : List (ℕ × ℚ)) =
        ForecastOutcome.insufficientData ∧
      forecastGate List.length (List.replicate 10 ((0 : ℕ), (0 : ℚ))) =
        ForecastOutcome.forecast
          (List.length (List.replicate 10 ((0 : ℕ), (0 : ℚ)))) ∧
      forecastAll List.length ([] ++ ([] : List (ℕ × ℚ)) :: []) =
        forecastAll List.length [] ++
          ForecastOutcome.insufficientData :: forecastAll List.length []) := by
  have h1 : ([] : List (ℕ × ℚ)).length < 10 := by simp
  have h2 : 10 ≤ (List.replicate 10 ((0 : ℕ), (0 : ℚ))).length := by simp
  exact ⟨⟨h1, h2⟩,
    C7_insufficient_data_gate List.length [] (List.replicate 10 ((0 : ℕ), (0 : ℚ)))
      [] [] h1 h2⟩

/-- C9: the analysis pipeline is a pure function of its input — two runs
on identical inputs (same series, filters, weights, horizon, sensitivity)
produce identical peak/low counts, health scores, and breach dates. -/
theorem C9_pipeline_deterministic (inp1 inp2 : PipelineInput)
    (h : inp1 = inp2) :
    analysisPipeline inp1 = analysisPipeline inp2 := by
  rw [h]

/-- Witness for C9 at a concrete pipeline input. -/
theorem C9_witness :
    ((⟨[([some 1, some 2, some 1], (none, some 1))], 1, [[(1, 80)]],
        [([(0, 5)], (none, some 3))]⟩ : PipelineInput) =
      (⟨[([some 1, some 2, some 1], (none, some 1))], 1, [[(1, 80)]],
        [([(0, 5)], (none, some 3))]⟩ : PipelineInput)) ∧
    analysisPipeline
        (⟨[([some 1, some 2, some 1], (none, some 1))], 1, [[(1, 80)]],
          [([(0, 5)], (none, some 3))]⟩ : PipelineInput) =
      analysisPipeline
        (⟨[([some 1, some 2, some 1], (none, some 1))], 1, [[(1, 80)]],
          [([(0, 5)], (none, some 3))]⟩ : PipelineInput) :=
  ⟨rfl, C9_pipeline_deterministic _ _ rfl⟩

/-- C10: the prediction module keys its threshold lookup on the
lower-cased (not alphanumeric-normalized) KPI name, so any selected KPI
whose lower-cased name is not one of the six canonical keys resolves to
`(None, None)` and its predicted failure date is `None` for every
forecast. -/
theorem C10_unmatched_kpi_no_breach (name : String) (f : List (ℕ × ℚ))
    (h : str_lower name ∉ KPI_THRESHOLDS.map Prod.fst) :
    lookupThresholds name = (none, none) ∧
    predicted_failure_date f (lookupThresholds name).1
      (lookupThresholds name).2 = none := by
  have hl : lookupThresholds name = (none, none) := by
    unfold lookupThresholds
    rw [lookup_eq_none_of_not_mem _ _ h]
    rfl
  refine ⟨hl, ?_⟩
  rw [hl]
  rfl

/-- Witness for C10 at the KPI display name "Door Friction". -/
theorem C10_witness :
    str_lower "Door Friction" ∉ KPI_THRESHOLDS.map Prod.fst ∧
    (lookupThresholds "Door Friction" = (none, none) ∧
      predicted_failure_date [(0, 1000)] (lookupThresholds "Door Friction").1
        (lookupThresholds "Door Friction").2 = none) := by
  have h : str_lower "Door Friction" ∉ KPI_THRESHOLDS.map Prod.fst := by decide
  exact ⟨h, C10_unmatched_kpi_no_breach "Door Friction" [(0, 1000)] h⟩

/-- C3: on a forecast sorted by timestamp, with only a high bound the
breach date is the earliest forecasted timestamp with `yhat > high`;
with only a low bound, the earliest with `yhat < low`; and it is `None`
exactly when no forecasted point crosses the bound. -/
theorem C3_breach_earliest_crossing (f : List (ℕ × ℚ)) (hb lb : ℚ) (d : ℕ)
    (hs : f.Pairwise (fun p q => p.1 ≤ q.1)) :
    (predicted_failure_date f none (some hb) = some d ↔
      (∃ y, (d, y) ∈ f ∧ hb < y) ∧ ∀ q ∈ f, hb < q.2 → d ≤ q.1) ∧
    (predicted_failure_date f none (some hb) = none ↔
      ∀ q ∈ f, ¬hb < q.2) ∧
    (predicted_failure_date f (some lb) none = some d ↔
      (∃ y, (d, y) ∈ f ∧ y < lb) ∧ ∀ q ∈ f, q.2 < lb → d ≤ q.1) ∧
    (predicted_failure_date f (some lb) none = none ↔
      ∀ q ∈ f, ¬q.2 < lb) := by
  refine ⟨?_, ?_, ?_, ?_⟩
  · rw [show predicted_failure_date f none (some hb) =
        ((f.filter (fun p => decide (hb < p.2))).head?).map Prod.fst from rfl]
    rw [head_filter_eq_some_iff _ f hs d]
    simp
  · rw [show predicted_failure_date f none (some hb) =
        ((f.filter (fun p => decide (hb < p.2))).head?).map Prod.fst from rfl]
    rw [head_filter_eq_none_iff]
    simp
  · rw [show predicted_failure_date f (some lb) none =
        ((f.filter (fun p => decide (p.2 < lb))).head?).map Prod.fst from rfl]
    rw [head_filter_eq_some_iff _ f hs d]
    simp
  · rw [show predicted_failure_date f (some lb) none =
        ((f.filter (fun p => decide (p.2 < lb))).head?).map Prod.fst from rfl]
    rw [head_filter_eq_none_iff]
    simp

/-- Witness for C3 on the sorted forecast `[(0, 5), (1, 10)]` with high
bound 7 and low bound 6. -/
theorem C3_witness :
    (([(0, 5), (1, 10)] : List (ℕ × ℚ)).Pairwise (fun p q => p.1 ≤ q.1)) ∧
    ((predicted_failure_date [(0, 5), (1, 10)] none (some 7) = some 1 ↔
      (∃ y, ((1 : ℕ), y) ∈ ([(0, 5), (1, 10)] : List (ℕ × ℚ)) ∧ (7 : ℚ) < y) ∧
        ∀ q ∈ ([(0, 5), (1, 10)] : List (ℕ × ℚ)), 7 < q.2 → 1 ≤ q.1) ∧
    (predicted_failure_date [(0, 5), (1, 10)] none (some 7) = none ↔
      ∀ q ∈ ([(0, 5), (1, 10)] : List (ℕ × ℚ)), ¬(7 : ℚ) < q.2) ∧
    (predicted_failure_date [(0, 5), (1, 10)] (some 6) none = some 1 ↔
      (∃ y, ((1 : ℕ), y) ∈ ([(0, 5), (1, 10)] : List (ℕ × ℚ)) ∧ y < (6 : ℚ)) ∧
        ∀ q ∈ ([(0, 5), (1, 10)] : List (ℕ × ℚ)), q.2 < 6 → 1 ≤ q.1) ∧
    (predicted_failure_date [(0, 5), (1, 10)] (some 6) none = none ↔
      ∀ q ∈ ([(0, 5), (1, 10)] : List (ℕ × ℚ)), ¬q.2 < (6 : ℚ))) := by
  have hs : (([(0, 5), (1, 10)] : List (ℕ × ℚ)).Pairwise
      (fun p q => p.1 ≤ q.1)) := by
    simp
  exact ⟨hs, C3_breach_earliest_crossing [(0, 5), (1, 10)] 7 6 1 hs⟩

/-- C1: the detector flags index `i` as a peak iff `i` is interior, the
value and both neighbors are non-null, the value strictly exceeds both
neighbors, and either the high bound is defined and exceeded or the value
exceeds `μ + k·σ` over the non-null values; symmetrically for lows with
`μ - k·σ`.  Strict comparisons mean plateaus are never flagged, and any
sequence of length < 3 yields no peaks and no lows. -/
theorem C1_detect_peaks_lows_spec (vs : List (Option ℚ))
    (low high : Option ℚ) (k : ℚ) (i : ℕ) (hk : 0 ≤ k) :
    (i ∈ (detect_peaks_lows vs low high k).1 ↔
      1 ≤ i ∧ i ≤ vs.length - 2 ∧
      ∃ a b c, vs.get? (i - 1) = some (some a) ∧
        vs.get? i = some (some b) ∧ vs.get? (i + 1) = some (some c) ∧
        a < b ∧ c < b ∧
        ((∃ hb, high = some hb ∧ hb < b) ∨
          (nanmean vs : ℝ) + k * Real.sqrt (nanvar vs) < (b : ℝ))) ∧
    (i ∈ (detect_peaks_lows vs low high k).2 ↔
      1 ≤ i ∧ i ≤ vs.length - 2 ∧
      ∃ a b c, vs.get? (i - 1) = some (some a) ∧
        vs.get? i = some (some b) ∧ vs.get? (i + 1) = some (some c) ∧
        b < a ∧ b < c ∧
        ((∃ lb, low = some lb ∧ b < lb) ∨
          (b : ℝ) < (nanmean vs : ℝ) - k * Real.sqrt (nanvar vs))) ∧
    (vs.length < 3 → detect_peaks_lows vs low high k = ([], [])) := by
  have hvar := nanvar_nonneg vs
  by_cases hg : vs.length < 3 ∨ nonNull vs = []
  · have hres : detect_peaks_lows vs low high k = ([], []) := by
      unfold detect_peaks_lows
      simp only [if_pos hg]
    refine ⟨?_, ?_, fun _ => hres⟩
    · rw [hres]
      simp only [List.not_mem_nil, false_iff]
      rintro ⟨h1, h2, a, b, c, ha, hb, hc, -⟩
      rcases hg with hg | hg
      · omega
      · exact get?_some_ne_nonNull_nil vs i b hb hg
    · rw [hres]
      simp only [List.not_mem_nil, false_iff]
      rintro ⟨h1, h2, a, b, c, ha, hb, hc, -⟩
      rcases hg with hg | hg
      · omega
      · exact get?_some_ne_nonNull_nil vs i b hb hg
  · push_neg at hg
    have hn : 3 ≤ vs.length := by omega
    have hres : detect_peaks_lows vs low high k =
        ((List.range' 1 (vs.length - 2)).filter
          (fun i => peakAt vs high (nanmean vs) (nanvar vs) k i),
         (List.range' 1 (vs.length - 2)).filter
          (fun i => lowAt vs low (nanmean vs) (nanvar vs) k i)) := by
      unfold detect_peaks_lows
      rw [if_neg]
      push_neg
      exact hg
    refine ⟨?_, ?_, fun h3 => absurd h3 (by omega)⟩
    · rw [hres]
      rw [mem_filter_range' vs.length _ i hn]
      rw [peakAt_eq_true_iff]
      constructor
      · rintro ⟨h1, h2, a, b, c, ha, hb, hc, hab, hcb, hor⟩
        refine ⟨h1, h2, a, b, c, ha, hb, hc, hab, hcb, ?_⟩
        rcases hor with hor | hor
        · exact Or.inl ((highBreach_iff high b).mp hor)
        · exact Or.inr ((statHigh_iff_real b _ _ k hk hvar).mp hor)
      · rintro ⟨h1, h2, a, b, c, ha, hb, hc, hab, hcb, hor⟩
        refine ⟨h1, h2, a, b, c, ha, hb, hc, hab, hcb, ?_⟩
        rcases hor with hor | hor
        · exact Or.inl ((highBreach_iff high b).mpr hor)
        · exact Or.inr ((statHigh_iff_real b _ _ k hk hvar).mpr hor)
    · rw [hres]
      rw [mem_filter_range' vs.length _ i hn]
      rw [lowAt_eq_true_iff]
      constructor
      · rintro ⟨h1, h2, a, b, c, ha, hb, hc, hab, hcb, hor⟩
        refine ⟨h1, h2, a, b, c, ha, hb, hc, hab, hcb, ?_⟩
        rcases hor with hor | hor
        · exact Or.inl ((lowBreach_iff low b).mp hor)
        · exact Or.inr ((statLow_iff_real b _ _ k hk hvar).mp hor)
      · rintro ⟨h1, h2, a, b, c, ha, hb, hc, hab, hcb, hor⟩
        refine ⟨h1, h2, a, b, c, ha, hb, hc, hab, hcb, ?_⟩
        rcases hor with hor | hor
        · exact Or.inl ((lowBreach_iff low b).mpr hor)
        · exact Or.inr ((statLow_iff_real b _ _ k hk hvar).mpr hor)

/-- Witness for C1 at the test series of the spec, `[30, 35, 80, 40, 38]` with
thresholds `(30, 50)`, sensitivity 1, index 2. -/
theorem C1_witness :
    (0 : ℚ) ≤ 1 ∧
    ((2 ∈ (detect_peaks_lows
        ([some 30, some 35, some 80, some 40, some 38] : List (Option ℚ))
        (some 30) (some 50) 1).1 ↔
      1 ≤ 2 ∧
      2 ≤ ([some 30, some 35, some 80, some 40, some 38] :
            List (Option ℚ)).length - 2 ∧
      ∃ a b c,
        ([some 30, some 35, some 80, some 40, some 38] :
          List (Option ℚ)).get? (2 - 1) = some (some a) ∧
        ([some 30, some 35, some 80, some 40, some 38] :
          List (Option ℚ)).get? 2 = some (some b) ∧
        ([some 30, some 35, some 80, some 40, some 38] :
          List (Option ℚ)).get? (2 + 1) = some (some c) ∧
        a < b ∧ c < b ∧
        ((∃ hb, (some (50 : ℚ) : Option ℚ) = some hb ∧ hb < b) ∨
          (nanmean ([some 30, some 35, some 80, some 40, some 38] :
              List (Option ℚ)) : ℝ) +
            ((1 : ℚ) : ℝ) * Real.sqrt (nanvar ([some 30, some 35, some 80, some 40, some 38] :
              List (Option ℚ))) < (b : ℝ))) ∧
    (2 ∈ (detect_peaks_lows
        ([some 30, some 35, some 80, some 40, some 38] : List (Option ℚ))
        (some 30) (some 50) 1).2 ↔
      1 ≤ 2 ∧
      2 ≤ ([some 30, some 35, some 80, some 40, some 38] :
            List (Option ℚ)).length - 2 ∧
      ∃ a b c,
        ([some 30, some 35, some 80, some 40, some 38] :
          List (Option ℚ)).get? (2 - 1) = some (some a) ∧
        ([some 30, some 35, some 80, some 40, some 38] :
          List (Option ℚ)).get? 2 = some (some b) ∧
        ([some 30, some 35, some 80, some 40, some 38] :
          List (Option ℚ)).get? (2 + 1) = some (some c) ∧
        b < a ∧ b < c ∧
        ((∃ lb, (some (30 : ℚ) : Option ℚ) = some lb ∧ b < lb) ∨
          (b : ℝ) < (nanmean ([some 30, some 35, some 80, some 40, some 38] :
              List (Option ℚ)) : ℝ) -
            ((1 : ℚ) : ℝ) * Real.sqrt (nanvar ([some 30, some 35, some 80, some 40, some 38] :
              List (Option ℚ))))) ∧
    (([some 30, some 35, some 80, some 40, some 38] :
        List (Option ℚ)).length < 3 →
      detect_peaks_lows
        ([some 30, some 35, some 80, some 40, some 38] : List (Option ℚ))
        (some 30) (some 50) 1 = ([], []))) :=
  ⟨by norm_num,
    C1_detect_peaks_lows_spec
      ([some 30, some 35, some 80, some 40, some 38] : List (Option ℚ))
      (some 30) (some 50) 1 2 (by norm_num)⟩

/-- The mean of a constant group is the constant. -/
lemma meanR_replicate (n : ℕ) (c : ℝ) (hn : n ≠ 0) :
    meanR (List.replicate n c) = c := by
  unfold meanR
  rw [List.sum_replicate, List.length_replicate, nsmul_eq_mul]
  have hn' : (n : ℝ) ≠ 0 := Nat.cast_ne_zero.mpr hn
  field_simp

/-- A constant group of at least two points has sample variance 0. -/
lemma sampleVar_replicate (n : ℕ) (c : ℝ) (hn : 2 ≤ n) :
    sampleVar (List.replicate n c) = 0 := by
  unfold sampleVar
  rw [meanR_replicate n c (by omega)]
  have hmap : (List.replicate n c).map (fun x => (x - c) ^ 2) =
      List.replicate n 0 := by
    rw [List.map_replicate]
    norm_num
  rw [hmap, List.sum_replicate]
  simp

/-- C5 counterexample: a singleton group (trivially all-identical values)
gets a NaN standard deviation — not 0 — and a NaN health sub-score — not
100. -/
theorem C5_counterexample :
    std_ave [(5 : ℝ)] ≠ some 0 ∧
    std_ave [(5 : ℝ)] = none ∧
    variabilityScores [[(5 : ℝ)]] ≠ [some 100] := by
  have h : std_ave [(5 : ℝ)] = none := by
    unfold std_ave
    norm_num
  refine ⟨by rw [h]; simp, h, ?_⟩
  unfold variabilityScores
  simp [h, health_sub_score]

/-- C5 (amended): the pandas sample std is NaN for groups with fewer than two
points, so such groups get a NaN (null) sub-score; every group of at
least two identical values has std exactly 0 and health sub-score exactly
100, regardless of the `max_std` of the current filtered set. -/
theorem C5_variability_amended (n : ℕ) (c M : ℝ) (xs : List ℝ)
    (hn : 2 ≤ n) (hxs : xs.length < 2) :
    std_ave (List.replicate n c) = some 0 ∧
    health_sub_score (std_ave (List.replicate n c)) M = some 100 ∧
    variabilityScores [List.replicate n c] = [some 100] ∧
    std_ave xs = none ∧
    health_sub_score (std_ave xs) M = none := by
  have hstd : std_ave (List.replicate n c) = some 0 := by
    unfold std_ave
    rw [List.length_replicate, if_neg (by omega), sampleVar_replicate n c hn,
      Real.sqrt_zero]
  have hscore : ∀ m : ℝ, health_sub_score (some 0) m = some 100 := by
    intro m
    unfold health_sub_score
    norm_num
  have hnone : std_ave xs = none := by
    unfold std_ave
    rw [if_pos hxs]
  refine ⟨hstd, by rw [hstd]; exact hscore M, ?_, hnone, by rw [hnone]; rfl⟩
  unfold variabilityScores
  simp only [List.map_cons, List.map_nil, hstd]
  simp [max_std, hscore]

/-- Witness for the amended C5 at the constant group `[7, 7, 7]` and the
singleton group `[5]`. -/
theorem C5_witness :
    (2 ≤ 3 ∧ [(5 : ℝ)].length < 2) ∧
    (std_ave (List.replicate 3 (7 : ℝ)) = some 0 ∧
      health_sub_score (std_ave (List.replicate 3 (7 : ℝ))) 2 = some 100 ∧
      variabilityScores [List.replicate 3 (7 : ℝ)] = [some 100] ∧
      std_ave [(5 : ℝ)] = none ∧
      health_sub_score (std_ave [(5 : ℝ)]) 2 = none) := by
  have h1 : 2 ≤ 3 := by norm_num
  have h2 : [(5 : ℝ)].length < 2 := by norm_num
  exact ⟨⟨h1, h2⟩, C5_variability_amended 3 7 2 [(5 : ℝ)] h1 h2⟩

end KonePortal
